import Mathlib

/-!
Shallow embedding of `src/nabertherm.py` (Nabertherm furnace supervisor).

Conventions of the embedding:
* Python floats that the claims touch are modelled as exact rationals `ℚ`
  (the only arithmetic involved is division by 10 and one ratio).
* Python exceptions are modelled with `Except PyError`; a method that can
  raise returns `Except PyError α`.
* Register-channel traffic is modelled as an explicit trace of `Event`s;
  a furnace method returns `(result, new object state, emitted events)`.
* The Modbus client (`pymodbus`) is modelled at its interface: a holding
  register read returns a response object carrying a `registers` list
  (exactly how line 339 of the source consumes it), and writes are
  acknowledged.  The function `bank : Nat → Nat → List Int` stands for the
  register contents the furnace would serve for a given (address, count).
-/

/-- Python exceptions that the embedded code can raise. -/
inductive PyError where
  | attributeError (name : String)
  | nameError (name : String)
  | typeError
  | valueError (msg : String)
  | assertionError (msg : String)
  | connectionRefusedError
  | keyError (msg : String)
  | runtimeError
deriving Repr, DecidableEq

/-- One interaction with the furnace over the Modbus channel. -/
inductive Event where
  | readRegs (address count : Nat)
  | writeRegs (address : Nat) (values : List Int)
  | sleep (seconds : ℚ)
deriving Repr, DecidableEq

/-- The pymodbus read response object: the payload is the `registers` list
(the source consumes it as `res.registers` on line 339). -/
structure ModbusResponse where
  registers : List Int
deriving Repr, DecidableEq

/-- Dynamic (runtime-typed) Python values that builtin `float` is applied to
in the source: plain ints, floats, or a pymodbus response object. -/
inductive PyVal where
  | int (n : Int)
  | rat (q : ℚ)
  | response (r : ModbusResponse)
deriving Repr, DecidableEq

/-- Builtin `float(x)`: defined on numbers; a pymodbus response object is
neither a number nor a string, so `float` raises TypeError on it. -/
def pyFloat : PyVal → Except PyError ℚ
  | .int n => .ok (n : ℚ)
  | .rat q => .ok q
  | .response _ => .error .typeError

/-- `client.read_holding_registers(address, count)`: returns the response
object and records the round trip on the trace. -/
def read_holding_registers (bank : Nat → Nat → List Int) (address count : Nat) :
    ModbusResponse × List Event :=
  (⟨bank address count⟩, [.readRegs address count])

/-- `InternalProgram` (source lines 18-65).  `segment_number` is
`np.linspace(1, 2, 2) = [1, 2]`; the other arrays start as zeros of the
same shape. -/
structure InternalProgram where
  program_number : Int
  program_temp : ℚ
  segment_number : List Int
  segment_ramp : List ℚ
  segment_time : List Int
  segment_remaining_time : List Int
deriving Repr, DecidableEq

/-- `InternalProgram.__init__` (lines 48-65): rejects a program number
outside [0, 50] with ValueError, otherwise builds the two-segment record. -/
def InternalProgram.init (program_number : Int) (program_temperature : ℚ) :
    Except PyError InternalProgram :=
  if program_number < 0 ∨ program_number > 50 then
    .error (.valueError ("Program number has to be between 0 and 50"))
  else
    .ok { program_number := program_number
          program_temp := program_temperature
          segment_number := [1, 2]
          segment_ramp := [0, 0]
          segment_time := [0, 0]
          segment_remaining_time := [0, 0] }

/-- The JSON record written by `to_json` (lines 88-102): the five keys of the
`data` dict.  `segment_remaining_time` is not serialized. -/
structure ProgramJson where
  program_number : Int
  temperature : ℚ
  segments : List Int
  segment_ramp : List ℚ
  segment_time : List Int
deriving Repr, DecidableEq

/-- `InternalProgram.to_json` (lines 88-102), at the level of the record that
is dumped to the file. -/
def InternalProgram.to_json (p : InternalProgram) : ProgramJson :=
  { program_number := p.program_number
    temperature := p.program_temp
    segments := p.segment_number
    segment_ramp := p.segment_ramp
    segment_time := p.segment_time }

/-- `InternalProgram.from_json` (lines 104-120): constructs via `__init__`
(which re-validates the program number) and then overwrites the three
segment arrays from the record. -/
def InternalProgram.from_json (s : ProgramJson) : Except PyError InternalProgram :=
  match InternalProgram.init s.program_number s.temperature with
  | .error e => .error e
  | .ok mat =>
      .ok { mat with
              segment_number := s.segments
              segment_ramp := s.segment_ramp
              segment_time := s.segment_time }

/-- `InternalProgram.__hash__` (lines 82-85): `hash((self.program_temp))` —
the hash of the set-point temperature alone, for any interpreter hash
function `pyHash` on floats. -/
def InternalProgram.hashOf (pyHash : ℚ → Int) (p : InternalProgram) : Int :=
  pyHash p.program_temp

/-- `InternalProgram.__eq__` (lines 67-80): its first statement evaluates
`instance(other, type(self))`, and `instance` is an undefined name (the
builtin is `isinstance`), so every invocation raises NameError before any
comparison is made. -/
def InternalProgram.eqMethod (_self _other : InternalProgram) : Except PyError Bool :=
  .error (.nameError ("instance"))

/-- CPython `set.add` for `InternalProgram` elements: the table lookup
compares the stored hash of each element with the hash of the new element;
on a hash match it checks object identity and otherwise calls `__eq__`,
which here always raises NameError (see `InternalProgram.eqMethod`).
Object identity is approximated by structural equality of the record. -/
def setAdd (pyHash : ℚ → Int) (s : List InternalProgram) (p : InternalProgram) :
    Except PyError (List InternalProgram) :=
  if s.any (fun q => decide (pyHash q.program_temp = pyHash p.program_temp) && decide (q ≠ p)) then
    .error (.nameError ("instance"))
  else if p ∈ s then .ok s
  else .ok (p :: s)

/-- Python dict assignment `d[k] = v`: replace the entry whose key is `k`,
or append a fresh entry.  It never raises. -/
def dictInsert (d : List (ℚ × InternalProgram)) (k : ℚ) (v : InternalProgram) :
    List (ℚ × InternalProgram) :=
  if k ∈ d.map Prod.fst then
    d.map (fun kv => if kv.1 = k then (k, v) else kv)
  else d ++ [(k, v)]

/-- Attribute state of an `InternalProgramDb` (lines 122-153): the set of
programs and the dict keyed by `program_temp`.  (The constructor itself,
line 151, reads the unbound name `program_db` and raises NameError; the
methods below are modelled on an arbitrary attribute state.) -/
structure InternalProgramDb where
  program_db : List InternalProgram
  program_dict : List (ℚ × InternalProgram)
deriving Repr, DecidableEq

def emptyDb : InternalProgramDb := { program_db := [], program_dict := [] }

/-- `InternalProgramDb.add_to_db` (lines 166-171): `self.program_db.add(program)`
runs first, outside the try; if it raises (duplicate hash triggering the
broken `__eq__`), the state is unchanged and the exception propagates.
Otherwise the dict assignment in the try body runs; it cannot raise, so the
handler (`except: print(...)`, spelled `execpt` in the source) is dead code. -/
def InternalProgramDb.add_to_db (pyHash : ℚ → Int) (db : InternalProgramDb)
    (program : InternalProgram) : Except PyError InternalProgramDb :=
  match setAdd pyHash db.program_db program with
  | .error e => .error e
  | .ok s =>
      .ok { program_db := s
            program_dict := dictInsert db.program_dict program.program_temp program }

/-- The database state a caller observes after one `add_to_db` call,
whether it returned normally or raised (a raising call leaves both the set
and the dict untouched). -/
def applyAdd (pyHash : ℚ → Int) (db : InternalProgramDb) (p : InternalProgram) :
    InternalProgramDb :=
  match db.add_to_db pyHash p with
  | .ok db2 => db2
  | .error _ => db

/-- The database state after a sequence of `add_to_db` calls. -/
def runAdds (pyHash : ℚ → Int) (db : InternalProgramDb) :
    List InternalProgram → InternalProgramDb
  | [] => db
  | p :: ps => runAdds pyHash (applyAdd pyHash db p) ps

/-- The dict holds at most one entry per temperature key. -/
def dictKeysNodup (db : InternalProgramDb) : Prop :=
  (db.program_dict.map Prod.fst).Nodup

instance (db : InternalProgramDb) : Decidable (dictKeysNodup db) :=
  List.nodupDecidable _

/-- Attribute state of a `Nabertherm` object (lines 198-251) as left by
`__init__` lines 220-242: thread bookkeeping, run bookkeeping, counters and
the connection flag.  The attribute `programs` that `run` (line 256) reads
is represented as an `Option`, because no statement of the class ever
assigns `self.programs`: on a really constructed object the lookup raises
AttributeError. -/
structure Nabertherm where
  running_program : Option InternalProgram
  alive : Bool
  interval : ℚ
  value : ℚ
  connected_to_furnace : Bool
  thread_started : Bool
  programs : Option (List (String × InternalProgram))
deriving Repr, DecidableEq

/-- The attribute state `__init__` (lines 212-242) establishes before the
program-list loading at lines 244-251: nothing running, thread not started,
connection made, and no `programs` attribute. -/
def Nabertherm.fresh (interval : ℚ) : Nabertherm :=
  { running_program := none
    alive := false
    interval := interval
    value := 0
    connected_to_furnace := true
    thread_started := false
    programs := none }

/-- Body of the `try` in `stop_run` (lines 282-287).  Its first statement,
`self.stop()`, looks up attribute `stop`, which is defined neither on
`Nabertherm` nor on `threading.Thread`, so AttributeError is raised before
any of the following statements (`self.alive = False`, the stop write, the
clearing of `running_program`) can run. -/
def Nabertherm.stop_run_body (st : Nabertherm) :
    Except PyError Unit × Nabertherm × List Event :=
  (.error (.attributeError ("stop")), st, [])

/-- `Nabertherm.stop_run` (lines 281-289): the try body around a bare
`except: pass`. -/
def Nabertherm.stop_run (st : Nabertherm) :
    Except PyError Unit × Nabertherm × List Event :=
  match st.stop_run_body with
  | (.ok u, st2, evs) => (.ok u, st2, evs)
  | (.error _, st2, evs) => (.ok (), st2, evs)

/-- `Nabertherm.stop_internal_program` (lines 291-296):
`write_registers(address=148, values=(2))` — `(2)` is the scalar 2, which
pymodbus wraps into the single-register payload `[2]`. -/
def Nabertherm.stop_internal_program (st : Nabertherm) (_program_number : Int) :
    Except PyError Unit × Nabertherm × List Event :=
  (.ok (), st, [.writeRegs 148 [2]])

/-- `Nabertherm.start_internal_program` (lines 343-345; this later
definition shadows the two-line variant at lines 298-299):
`write_registers(address=148, values=(1, program_number, segment_number))`. -/
def Nabertherm.start_internal_program (st : Nabertherm)
    (program_number segment_number : Int) :
    Except PyError Unit × Nabertherm × List Event :=
  (.ok (), st, [.writeRegs 148 [1, program_number, segment_number]])

/-- `threading.Thread.start`: raises RuntimeError if the thread was already
started, otherwise marks it started.  (The spawned thread then invokes
`self.run()` with no arguments, which dies on its own TypeError inside that
thread; that is invisible to the caller modelled here.) -/
def Nabertherm.threadStart (st : Nabertherm) : Except PyError Nabertherm :=
  if st.thread_started then .error .runtimeError
  else .ok { st with thread_started := true }

/-- `Nabertherm.run` (lines 253-279).  Statement order as in the source:
`self.start()`; `self.interval = interval`; the `if not self.programs`
guard (the `programs` attribute is never assigned anywhere in the class, so
on a constructed object this lookup raises AttributeError); then the try
block with the running-program guard (ConnectionRefusedError, not caught —
the handler only catches KeyError), the `self.programs[program_name]`
lookup, and a second `self.start()`, which always raises RuntimeError
because the thread is already started, making the polling loop below it
(lines 270-276) unreachable.  The start-command write (lines 266-269) is
commented out in the source, so `run` never writes to the channel. -/
def Nabertherm.run (st : Nabertherm) (program_name : String) (interval : ℚ)
    (_log : Bool) : Except PyError Unit × Nabertherm × List Event :=
  match st.threadStart with
  | .error e => (.error e, st, [])
  | .ok st1 =>
    let st2 := { st1 with interval := interval }
    match st2.programs with
    | none => (.error (.attributeError ("programs")), st2, [])
    | some progs =>
      if progs = [] then
        (.error (.valueError ("No programs stored in database, need at least on program")), st2, [])
      else if st2.running_program.isSome then
        (.error .connectionRefusedError, st2, [])
      else
        match progs.find? (fun kv => kv.1 == program_name) with
        | none => (.error (.keyError ("Program name not found")), st2, [])
        | some kv =>
          let st3 := { st2 with running_program := some kv.2, alive := true }
          match st3.threadStart with
          | .error e => (.error e, st3, [])
          | .ok st4 => (.ok (), st4, [])

/-- `Nabertherm.read_temerature` (lines 322-324):
`float(client.read_holding_registers(address=100, count=1)) / 10.0` — the
builtin `float` is applied to the response object itself, not to its
register value. -/
def Nabertherm.read_temerature (bank : Nat → Nat → List Int) (st : Nabertherm) :
    Except PyError ℚ × Nabertherm × List Event :=
  let rv := read_holding_registers bank 100 1
  match pyFloat (.response rv.1) with
  | .error e => (.error e, st, rv.2)
  | .ok q => (.ok (q / 10), st, rv.2)

/-- `Nabertherm.read_set_value_temperature` (lines 333-335): same shape as
`read_temerature`, at address 111. -/
def Nabertherm.read_set_value_temperature (bank : Nat → Nat → List Int)
    (st : Nabertherm) : Except PyError ℚ × Nabertherm × List Event :=
  let rv := read_holding_registers bank 111 1
  match pyFloat (.response rv.1) with
  | .error e => (.error e, st, rv.2)
  | .ok q => (.ok (q / 10), st, rv.2)

/-- `Nabertherm.read_remaining_time` (lines 337-341): the two-register read
at address 128 happens first; building the decoder then evaluates the
keyword argument `wordorder=Ending.Little`, and `Ending` is an undefined
name (the import is `Endian`), so NameError is raised before any decoding.
(Had it been spelled `Endian`, the next line still reads
`decoder.decode_32bit_int` without calling it, so the decoded integer would
still never be produced.) -/
def Nabertherm.read_remaining_time (bank : Nat → Nat → List Int)
    (st : Nabertherm) : Except PyError Int × Nabertherm × List Event :=
  let rv := read_holding_registers bank 128 2
  (.error (.nameError ("Ending")), st, rv.2)

/-- Line 318 as written:
`p.segment_ramp[0] = p.program_temp / float(segment_time)`.  The divisor is
the bare name `segment_time`, which is bound nowhere in the function (the
array is the attribute `p.segment_time`), so evaluating the right-hand side
raises NameError for every program and every hold time. -/
def derive_segment_ramp (_p : InternalProgram) : Except PyError ℚ :=
  .error (.nameError ("segment_time"))

/-- The two assert statements of `read_single_internal_program`
(lines 309-310): `program_number > -1` and `program_number < 51`. -/
def program_number_asserts (program_number : Int) : Except PyError Unit :=
  if program_number > -1 then
    if program_number < 51 then .ok ()
    else .error (.assertionError ("Program number has be between 0 and 50"))
  else .error (.assertionError ("Program number has be between 0 and 50"))

/-- `Nabertherm.read_single_internal_program` (lines 308-320): asserts on
the program number, then — when connected — `stop_run()` (a silent no-op,
see `Nabertherm.stop_run`), `start_internal_program(program_number)` with
the default segment 1, `time.sleep(self.interval)`, and the set-point
read-back `float(read_holding_registers(111, 1)) / 10.0`, whose `float`
raises TypeError on the response object.  The continuation (constructing
the `InternalProgram`, reading the remaining time, deriving the ramp,
stopping again, returning the program) is written out but unreachable.
When not connected the function falls off the end and returns None. -/
def Nabertherm.read_single_internal_program (bank : Nat → Nat → List Int)
    (st : Nabertherm) (program_number : Int) :
    Except PyError (Option InternalProgram) × Nabertherm × List Event :=
  match program_number_asserts program_number with
  | .error e => (.error e, st, [])
  | .ok _ =>
    if st.connected_to_furnace then
      match st.stop_run with
      | (.error e, st1, e1) => (.error e, st1, e1)
      | (.ok _, st1, e1) =>
        match st1.start_internal_program program_number 1 with
        | (.error e, st2, e2) => (.error e, st2, e1 ++ e2)
        | (.ok _, st2, e2) =>
          let e3 : List Event := [.sleep st2.interval]
          let rv := read_holding_registers bank 111 1
          match pyFloat (.response rv.1) with
          | .error e => (.error e, st2, e1 ++ e2 ++ e3 ++ rv.2)
          | .ok raw =>
            let temp := raw / 10
            match InternalProgram.init program_number temp with
            | .error e => (.error e, st2, e1 ++ e2 ++ e3 ++ rv.2)
            | .ok p =>
              match st2.read_remaining_time bank with
              | (.error e, st3, e5) => (.error e, st3, e1 ++ e2 ++ e3 ++ rv.2 ++ e5)
              | (.ok t, st3, e5) =>
                let p2 := { p with segment_time := p.segment_time.set 0 t }
                match derive_segment_ramp p2 with
                | .error e => (.error e, st3, e1 ++ e2 ++ e3 ++ rv.2 ++ e5)
                | .ok r =>
                  let p3 := { p2 with segment_ramp := p2.segment_ramp.set 0 r }
                  match st3.stop_run with
                  | (.error e, st4, e6) => (.error e, st4, e1 ++ e2 ++ e3 ++ rv.2 ++ e5 ++ e6)
                  | (.ok _, st4, e6) => (.ok (some p3), st4, e1 ++ e2 ++ e3 ++ rv.2 ++ e5 ++ e6)
    else (.ok none, st, [])

/-- A concrete register bank for witnesses: every read returns `count`
registers holding 7. -/
def bank0 : Nat → Nat → List Int := fun _ count => List.replicate count 7

/-- A concrete internal program used by witnesses. -/
def prog3 : InternalProgram :=
  { program_number := 3
    program_temp := 100
    segment_number := [1, 2]
    segment_ramp := [0, 0]
    segment_time := [0, 0]
    segment_remaining_time := [0, 0] }

/-- Same set-point temperature as `prog3`, different slot number. -/
def prog4 : InternalProgram := { prog3 with program_number := 4 }

/-- A distinct-temperature program for witnesses. -/
def prog5 : InternalProgram := { prog3 with program_number := 5, program_temp := 200 }

/-- The interpreter hash on floats used in witnesses (any function works for
the theorems; the numerator is a simple concrete choice). -/
def hashNum : ℚ → Int := fun q => q.num

/-! ## Helper lemmas (shared) -/

lemma threadStart_ok_started {st st1 : Nabertherm} (h : st.threadStart = .ok st1) :
    st1.thread_started = true := by
  unfold Nabertherm.threadStart at h
  split at h
  · cases h
  · cases h
    rfl

lemma stop_run_spec (st : Nabertherm) : st.stop_run = (.ok (), st, []) := rfl

/-! ## Claims -/

/-- Claim C2: the claim says `stop_run` succeeds, issues the stop command and
forces the local state to Idle.  What the code actually does: `self.stop()`
raises AttributeError (`threading.Thread` has no `stop` method), the bare
`except: pass` swallows it, and the call returns normally having issued no
write and changed nothing — `alive` and `running_program` keep whatever
values they had.  Only the never-raises and trivially-idempotent parts of
the claim survive. -/
theorem c2_stop_run_is_silent_noop :
    ∀ st : Nabertherm, st.stop_run = (.ok (), st, ([] : List Event)) :=
  fun _ => rfl

/-- Claim C3 counterexample: the stop command actually written to register
148 by `stop_internal_program` is the single value [2], not the triple
[2, 0, 0] the claim states. -/
theorem c3_stop_write_not_triple :
    decide ((Nabertherm.stop_internal_program (Nabertherm.fresh 1) 3).2.2
      = [Event.writeRegs 148 [2, 0, 0]]) = false := by decide

/-- Claim C3 (amended): every start/jump command written to register 148 is
the triple [1, programId, segmentIndex]; the stop operation writes the
single value [2] (pymodbus wraps the scalar `(2)`), and `stop_run` issues
no write at all because its body dies on the swallowed AttributeError. -/
theorem c3_command_write_shapes :
    ∀ (st : Nabertherm) (n s : Int),
      (st.start_internal_program n s).2.2 = [Event.writeRegs 148 [1, n, s]] ∧
      (st.stop_internal_program n).2.2 = [Event.writeRegs 148 [2]] ∧
      st.stop_run.2.2 = ([] : List Event) :=
  fun _ _ _ => ⟨rfl, rfl, rfl⟩

/-- Claim C5: the remaining-time read does read exactly 2 registers at
address 128, but it never returns the decoded signed 32-bit integer: the
decoder construction evaluates the undefined name `Ending` (the import is
`Endian`) and raises NameError on every call. -/
theorem c5_read_remaining_time_nameerror :
    ∀ (bank : Nat → Nat → List Int) (st : Nabertherm),
      st.read_remaining_time bank
        = (.error (.nameError ("Ending")), st, [Event.readRegs 128 2]) :=
  fun _ _ => rfl

/-- Claim C6: the claim says the accessors return the raw register value
divided by 10.  In the code, builtin `float` is applied to the pymodbus
response object itself rather than to its register value, so both
accessors raise TypeError on every call and return no value at all. -/
theorem c6_temperature_accessors_typeerror :
    ∀ (bank : Nat → Nat → List Int) (st : Nabertherm),
      st.read_temerature bank = (.error .typeError, st, [Event.readRegs 100 1]) ∧
      st.read_set_value_temperature bank
        = (.error .typeError, st, [Event.readRegs 111 1]) :=
  fun _ _ => ⟨rfl, rfl⟩

lemma run_always_errors_without_events (st : Nabertherm) (name : String) (i : ℚ)
    (lg : Bool) :
    (∃ e, (st.run name i lg).1 = Except.error e) ∧ (st.run name i lg).2.2 = [] := by
  unfold Nabertherm.run
  split
  · exact ⟨⟨_, rfl⟩, rfl⟩
  · next st1 hts =>
    have h1 : st1.thread_started = true := threadStart_ok_started hts
    dsimp only
    split
    · exact ⟨⟨_, rfl⟩, rfl⟩
    · split_ifs with hpe hrp
      · exact ⟨⟨_, rfl⟩, rfl⟩
      · exact ⟨⟨_, rfl⟩, rfl⟩
      · split
        · exact ⟨⟨_, rfl⟩, rfl⟩
        · unfold Nabertherm.threadStart
          dsimp only
          simp only [h1, if_true]
          exact ⟨⟨_, rfl⟩, trivial⟩

/-- Claim C1: the claim says a `run` issued while a program is active fails
with the AlreadyRunning error and issues zero channel writes.  What the
code guarantees is only the second half: `run` never touches the channel
(its start-command write is commented out), and in fact it always raises —
but never through the AlreadyRunning guard on a real object: the guard
sits behind `if not self.programs`, and the attribute `programs` is never
assigned, so a constructed controller with a program marked running fails
with AttributeError before the guard is reached. -/
theorem c1_run_never_writes_and_misses_already_running_check :
    (∀ (st : Nabertherm) (name : String) (i : ℚ) (lg : Bool),
        (st.run name i lg).2.2 = ([] : List Event)) ∧
    (∀ (st : Nabertherm) (name : String) (i : ℚ) (lg : Bool),
        ∃ e, (st.run name i lg).1 = Except.error e) ∧
    ({ Nabertherm.fresh 1 with running_program := some prog3 } : Nabertherm).run
        ("p") 1 false
      = (.error (.attributeError ("programs")),
         { Nabertherm.fresh 1 with
             running_program := some prog3, thread_started := true }, []) :=
  ⟨fun st n i l => (run_always_errors_without_events st n i l).2,
   fun st n i l => (run_always_errors_without_events st n i l).1,
   rfl⟩

/-- Claim C4: the program-number validation of
`read_single_internal_program` (the two asserts of lines 309-310) accepts
exactly [0, 50], rejects anything outside it before any channel I/O (the
trace is empty on rejection), and `InternalProgram.__init__` enforces the
same bound. -/
theorem c4_program_number_validation :
    (∀ n : Int, program_number_asserts n = .ok () ↔ 0 ≤ n ∧ n ≤ 50) ∧
    (∀ (bank : Nat → Nat → List Int) (st : Nabertherm) (n : Int),
        n < 0 ∨ 50 < n →
        st.read_single_internal_program bank n
          = (.error (.assertionError ("Program number has be between 0 and 50")),
             st, [])) ∧
    (∀ (n : Int) (t : ℚ),
        (∃ p, InternalProgram.init n t = .ok p) ↔ 0 ≤ n ∧ n ≤ 50) := by
  refine ⟨?_, ?_, ?_⟩
  · intro n
    unfold program_number_asserts
    split_ifs with h1 h2
    · simp only [true_iff]
      omega
    · constructor
      · intro h
        cases h
      · intro h
        omega
    · constructor
      · intro h
        cases h
      · intro h
        omega
  · intro bank st n h
    unfold Nabertherm.read_single_internal_program program_number_asserts
    rcases h with h | h
    · rw [if_neg (by omega)]
    · rw [if_pos (by omega), if_neg (by omega)]
  · intro n t
    unfold InternalProgram.init
    split_ifs with h
    · constructor
      · rintro ⟨p, hp⟩
        cases hp
      · intro hn
        omega
    · constructor
      · intro _
        omega
      · intro _
        exact ⟨_, rfl⟩

/-- Claim C4 witness: -1 and 51 are rejected with no I/O, 0 and 50 are
accepted, by both the read path and the constructor. -/
theorem c4_program_number_validation_witness :
    program_number_asserts 0 = .ok () ∧
    program_number_asserts 50 = .ok () ∧
    Nabertherm.read_single_internal_program bank0 (Nabertherm.fresh 1) (-1)
      = (.error (.assertionError ("Program number has be between 0 and 50")),
         Nabertherm.fresh 1, []) ∧
    Nabertherm.read_single_internal_program bank0 (Nabertherm.fresh 1) 51
      = (.error (.assertionError ("Program number has be between 0 and 50")),
         Nabertherm.fresh 1, []) ∧
    (∃ p, InternalProgram.init 0 100 = .ok p) ∧
    (∃ p, InternalProgram.init 50 100 = .ok p) :=
  ⟨(c4_program_number_validation.1 0).mpr (by decide),
   (c4_program_number_validation.1 50).mpr (by decide),
   c4_program_number_validation.2.1 bank0 (Nabertherm.fresh 1) (-1) (Or.inl (by decide)),
   c4_program_number_validation.2.1 bank0 (Nabertherm.fresh 1) 51 (Or.inr (by decide)),
   (c4_program_number_validation.2.2 0 100).mpr (by decide),
   (c4_program_number_validation.2.2 50 100).mpr (by decide)⟩

/-- Claim C7: the claim says a segment derived from a read-back carries
ramp `s / h` for `h > 0` and a checked input error for `h = 0`.  In the
code no ramp is ever derived at all: line 318 divides by the unbound name
`segment_time` (NameError), and the read-back aborts even earlier with the
TypeError of the set-point decode — `read_single_internal_program` never
returns a program, and there is no `h = 0` input check anywhere. -/
theorem c7_ramp_derivation_never_happens :
    (∀ p : InternalProgram,
        derive_segment_ramp p = .error (.nameError ("segment_time"))) ∧
    (∀ (bank : Nat → Nat → List Int) (st : Nabertherm) (n : Int),
        (st.read_single_internal_program bank n).1 = .ok none ∨
        ∃ e, (st.read_single_internal_program bank n).1 = .error e) := by
  refine ⟨fun _ => rfl, ?_⟩
  intro bank st n
  unfold Nabertherm.read_single_internal_program
  cases ha : program_number_asserts n with
  | error e => exact Or.inr ⟨e, rfl⟩
  | ok u =>
    by_cases hc : st.connected_to_furnace = true
    · rw [if_pos hc]
      exact Or.inr ⟨.typeError, rfl⟩
    · rw [if_neg hc]
      exact Or.inl rfl

/-- Claim C8: the claim describes the sequence stop, start at segment 1,
wait, read set point, read remaining time, construct, stop, return.  The
code actually performs: no stop write at all (`stop_run` is a silent
no-op), the start write [1, n, 1], the sleep, the single set-point read —
and then dies with TypeError (builtin `float` applied to the response
object), never reading the remaining time, constructing a program, or
stopping again. -/
theorem c8_read_single_internal_program_trace :
    ∀ (bank : Nat → Nat → List Int) (st : Nabertherm) (n : Int),
      0 ≤ n → n ≤ 50 → st.connected_to_furnace = true →
      st.read_single_internal_program bank n
        = (.error .typeError, st,
           [Event.writeRegs 148 [1, n, 1], Event.sleep st.interval,
            Event.readRegs 111 1]) := by
  intro bank st n h1 h2 hc
  have ha : program_number_asserts n = .ok () := by
    unfold program_number_asserts
    rw [if_pos (by omega), if_pos (by omega)]
  unfold Nabertherm.read_single_internal_program
  rw [ha, if_pos hc]
  rfl

/-- Claim C8 witness: reading internal program 3 on a freshly connected
controller produces exactly the divergent trace and the TypeError. -/
theorem c8_read_single_internal_program_trace_witness :
    (0 : Int) ≤ 3 ∧ (3 : Int) ≤ 50 ∧
    (Nabertherm.fresh 1).connected_to_furnace = true ∧
    Nabertherm.read_single_internal_program bank0 (Nabertherm.fresh 1) 3
      = (.error .typeError, Nabertherm.fresh 1,
         [Event.writeRegs 148 [1, 3, 1], Event.sleep 1, Event.readRegs 111 1]) :=
  ⟨by decide, by decide, rfl,
   c8_read_single_internal_program_trace bank0 (Nabertherm.fresh 1) 3
     (by decide) (by decide) rfl⟩

/-- Claim C9: serializing an `InternalProgram` with a program number in
[0, 50] to its JSON record and reading it back with `from_json` restores
the program number, the set-point temperature and all three segment arrays
(only `segment_remaining_time`, which is not serialized, is reset). -/
theorem c9_json_round_trip :
    ∀ p : InternalProgram, 0 ≤ p.program_number → p.program_number ≤ 50 →
      InternalProgram.from_json (InternalProgram.to_json p)
        = .ok { p with segment_remaining_time := [0, 0] } := by
  intro p h1 h2
  unfold InternalProgram.from_json InternalProgram.to_json InternalProgram.init
  dsimp only
  rw [if_neg (by omega)]

/-- Claim C9 witness: the round trip restores program 3 exactly. -/
theorem c9_json_round_trip_witness :
    0 ≤ prog3.program_number ∧ prog3.program_number ≤ 50 ∧
    InternalProgram.from_json (InternalProgram.to_json prog3)
      = .ok { prog3 with segment_remaining_time := [0, 0] } :=
  ⟨by decide, by decide, c9_json_round_trip prog3 (by decide) (by decide)⟩

lemma dictInsert_keys_nodup {d : List (ℚ × InternalProgram)} {k : ℚ}
    {v : InternalProgram} (h : (d.map Prod.fst).Nodup) :
    ((dictInsert d k v).map Prod.fst).Nodup := by
  unfold dictInsert
  split_ifs with hk
  · have hkeys : (d.map (fun kv => if kv.1 = k then (k, v) else kv)).map Prod.fst
        = d.map Prod.fst := by
      rw [List.map_map]
      refine List.map_congr_left ?_
      intro kv _
      by_cases hkv : kv.1 = k
      · simp [hkv]
      · simp [hkv]
    rw [hkeys]
    exact h
  · rw [List.map_append]
    rw [List.nodup_append]
    refine ⟨h, by simp, ?_⟩
    intro a ha hb
    simp only [List.map_cons, List.map_nil, List.mem_singleton] at hb
    subst hb
    exact hk ha

lemma applyAdd_keys_nodup (pyHash : ℚ → Int) (db : InternalProgramDb)
    (p : InternalProgram) (h : dictKeysNodup db) :
    dictKeysNodup (applyAdd pyHash db p) := by
  unfold applyAdd InternalProgramDb.add_to_db
  cases hs : setAdd pyHash db.program_db p with
  | error e => exact h
  | ok s => exact dictInsert_keys_nodup h

lemma runAdds_keys_nodup (pyHash : ℚ → Int) (db : InternalProgramDb)
    (ops : List InternalProgram) (h : dictKeysNodup db) :
    dictKeysNodup (runAdds pyHash db ops) := by
  induction ops generalizing db with
  | nil => exact h
  | cons p ps ih => exact ih _ (applyAdd_keys_nodup pyHash db p h)

/-- Claim C10: the hash of an `InternalProgram` is the hash of its set-point
temperature alone, so equal-temperature programs collide regardless of
their program numbers; `add_to_db` keys the dict by temperature, and after
any sequence of `add_to_db` calls the dict holds at most one program per
distinct temperature — a later add with a duplicate temperature never
creates a second entry (in this code it raises out of the broken `__eq__`
and leaves the database untouched). -/
theorem c10_hash_and_dict_by_temperature :
    (∀ (pyHash : ℚ → Int) (p : InternalProgram),
        InternalProgram.hashOf pyHash p = pyHash p.program_temp) ∧
    (∀ (pyHash : ℚ → Int) (p q : InternalProgram),
        p.program_temp = q.program_temp →
        InternalProgram.hashOf pyHash p = InternalProgram.hashOf pyHash q) ∧
    (∀ (pyHash : ℚ → Int) (db : InternalProgramDb) (ops : List InternalProgram),
        dictKeysNodup db → dictKeysNodup (runAdds pyHash db ops)) :=
  ⟨fun _ _ => rfl,
   fun pyHash p q h => by unfold InternalProgram.hashOf; rw [h],
   runAdds_keys_nodup⟩

/-- Claim C10 witness: programs 3 and 4 share temperature 100 and collide
under a concrete hash; adding [prog3, prog4, prog5] to the empty database
leaves the dict with pairwise-distinct temperature keys. -/
theorem c10_hash_and_dict_by_temperature_witness :
    InternalProgram.hashOf hashNum prog3 = hashNum prog3.program_temp ∧
    prog3.program_temp = prog4.program_temp ∧
    InternalProgram.hashOf hashNum prog3 = InternalProgram.hashOf hashNum prog4 ∧
    dictKeysNodup emptyDb ∧
    dictKeysNodup (runAdds hashNum emptyDb [prog3, prog4, prog5]) :=
  ⟨c10_hash_and_dict_by_temperature.1 hashNum prog3,
   rfl,
   c10_hash_and_dict_by_temperature.2.1 hashNum prog3 prog4 rfl,
   by decide,
   c10_hash_and_dict_by_temperature.2.2 hashNum emptyDb [prog3, prog4, prog5]
     (by decide)⟩
